import Mathlib

/-!
Verification of the aurwrite pipeline (`src/aurwrite_app.py`).

Python strings are modelled as `List Char`.  `str.strip()` is `pyStrip`,
`str.isalnum()` is approximated by `Char.isAlphanum`, and
`s.split(sep, 1)[-1]` is modelled with `splitOnceAfter`.  The Streamlit
"Create" view is modelled as a pure function over an environment that
supplies the results of the external calls (Whisper, the GPT-2 pipeline,
the filesystem, the TTS engines), recording a trace of the effects.
-/

namespace Aurwrite

/-- Python `str.strip()`: drop whitespace from both ends. -/
def pyStrip (s : List Char) : List Char :=
  ((s.dropWhile Char.isWhitespace).reverse.dropWhile Char.isWhitespace).reverse

/-- Boolean test that `p` is a leading segment of `s` (Python `s.startswith(p)`). -/
def leadsWith : List Char → List Char → Bool
  | [], _ => true
  | _ :: _, [] => false
  | a :: as, b :: bs => a == b && leadsWith as bs

/-- The part of `s` strictly after the first occurrence of `sep`, if `sep`
occurs in `s` (the second component of Python `s.split(sep, 1)` when the
split finds the separator). -/
def splitOnceAfter (sep : List Char) : List Char → Option (List Char)
  | [] => if leadsWith sep [] then some (([] : List Char).drop sep.length) else none
  | c :: cs =>
    if leadsWith sep (c :: cs) then some ((c :: cs).drop sep.length)
    else splitOnceAfter sep cs

/-- Boolean occurrence test: does `sep` occur contiguously inside `s`? -/
def containsSeq (sep s : List Char) : Bool :=
  (splitOnceAfter sep s).isSome

/-- The literal marker `"Rewrite:\n"` used at line 216 of the source. -/
def marker : List Char := "Rewrite:\n".data

/-- Post-processing of the generator output (line 216 of the source):
`out.split("Rewrite:\n", 1)[-1].strip()`.  Python's `[-1]` takes the part
after the separator when the separator occurs, and the whole string
otherwise. -/
def styled (out : List Char) : List Char :=
  pyStrip (match splitOnceAfter marker out with
           | some t => t
           | none => out)

/-- The generation prompt built at line 206 of the source:
`f"{prompt}\n\nOriginal:\n{transcript}\n\nRewrite:\n"`. -/
def seed_prompt (p t : List Char) : List Char :=
  p ++ "\n\nOriginal:\n".data ++ t ++ "\n\nRewrite:\n".data

/-- Filename sanitization at line 183 of the source:
`"".join([c for c in name if c.isalnum() or c in (" ", ".", "_", "-")]).strip()`. -/
def keepChar (c : Char) : Bool :=
  c.isAlphanum || c == ' ' || c == '.' || c == '_' || c == '-'

/-- Sanitized filename (line 183 of the source). -/
def safe_name (s : List Char) : List Char :=
  pyStrip (s.filter keepChar)

/-- Directory constants from lines 12-15 of the source, relative to `BASE_DIR`. -/
def UPLOAD_DIR : List Char := "uploads".data

/-- Output directory for narration audio (line 14 of the source). -/
def AUDIO_OUT_DIR : String := "outputs/audio"

/-- Directory holding the style template files (line 15 of the source). -/
def STYLES_DIR : String := "styles"

/-- The transient narration wav path `os.path.join(AUDIO_OUT_DIR, "tmp_tts.wav")`
fixed at line 103 of the source. -/
def tmp_tts_path : String := AUDIO_OUT_DIR ++ "/tmp_tts.wav"

/-- The style catalog `STYLE_FILES` (lines 154-159 of the source): a fixed
four-entry dictionary from style name to template path.  `none` models a
`KeyError` on lookup. -/
def STYLE_FILES (name : String) : Option String :=
  if name = "Fairy Tale" then some (STYLES_DIR ++ "/fairytale.txt")
  else if name = "News Article" then some (STYLES_DIR ++ "/news.txt")
  else if name = "Stand-Up Comedy" then some (STYLES_DIR ++ "/comedy.txt")
  else if name = "Horror" then some (STYLES_DIR ++ "/horror.txt")
  else none

/-- The four style names offered by the UI (`list(STYLE_FILES.keys())`). -/
def styleNames : List String :=
  ["Fairy Tale", "News Article", "Stand-Up Comedy", "Horror"]

/-- The catalog lookup `load_style_prompt` (lines 161-164 of the source):
`STYLE_FILES[style_name]` raises `KeyError` (a `LookupError`) for an unknown
name, otherwise the file is read and `.strip()`ed.  `readFile` supplies the
contents of each template file. -/
def load_style_prompt (readFile : String → List Char) (name : String) :
    Except String (List Char) :=
  match STYLE_FILES name with
  | none => Except.error "KeyError"
  | some path => Except.ok (pyStrip (readFile path))

/-- Environment for one call of `tts_to_bytes`: which engines are available
and how the external engine invocations behave.  `espeakOk` is whether
`subprocess.run(["espeak-ng", ...], check=True)` succeeds; when it fails,
`espeakWroteWav` says whether espeak produced the wav before failing.
`fbCreates` is whether the pyttsx3 `save_to_file`/`runAndWait` pair produces
the wav file; `fbRaises` is whether that engine raises an exception (after
producing the file or not, per `fbCreates`).  `wavBytes` is the content of a
produced wav file. -/
structure TtsEnv where
  espeakAvailable : Bool
  espeakOk : Bool
  espeakWroteWav : Bool
  fbCreates : Bool
  fbRaises : Bool
  wavBytes : List Nat

/-- Existence of the two transient files of a `tts_to_bytes` call: the
espeak input text file and `tmp_tts.wav`. -/
structure FS where
  txtExists : Bool
  wavExists : Bool
deriving DecidableEq

/-- Result of a `tts_to_bytes` call: the returned bytes or the raised
exception's message, the final state of the transient files, the list of
paths the wav was written to during the call, and the text written to the
transient text file (espeak path only). -/
structure TtsResult where
  res : Except String (List Nat)
  fs : FS
  wavWrites : List String
  txtWritten : Option (List Char)

/-- Model of `tts_to_bytes` (lines 101-146 of the source).  On the espeak
path the transient text file is written, `espeak-ng` is invoked writing the
wav, and a `finally` block removes both files on every exit.  On the
pyttsx3 fallback path the engine renders to the same wav path with no
`try`/`finally`; if no wav file exists afterwards a `RuntimeError` is
raised, otherwise the file is read and removed.  Local file reads, writes
and removals by the process itself are modelled as succeeding; the external
engine invocations may fail as described by `env`. -/
def tts_to_bytes (env : TtsEnv) (fs : FS) (text : List Char) : TtsResult :=
  if env.espeakAvailable then
    if env.espeakOk then
      { res := Except.ok env.wavBytes
        fs := { txtExists := false, wavExists := false }
        wavWrites := [tmp_tts_path]
        txtWritten := some text }
    else
      { res := Except.error "subprocess.CalledProcessError"
        fs := { txtExists := false, wavExists := false }
        wavWrites := if env.espeakWroteWav then [tmp_tts_path] else []
        txtWritten := some text }
  else
    let wavNow := fs.wavExists || env.fbCreates
    let writes := if env.fbCreates then [tmp_tts_path] else []
    if env.fbRaises then
      { res := Except.error "pyttsx3 engine exception"
        fs := { txtExists := fs.txtExists, wavExists := wavNow }
        wavWrites := writes
        txtWritten := none }
    else if wavNow then
      { res := Except.ok env.wavBytes
        fs := { txtExists := fs.txtExists, wavExists := false }
        wavWrites := writes
        txtWritten := none }
    else
      { res := Except.error "TTS failed. On Linux, install and use espeak-ng."
        fs := { txtExists := fs.txtExists, wavExists := false }
        wavWrites := writes
        txtWritten := none }

/-- Environment for one run of the Create view: the text Whisper returns
for the uploaded audio (`result["text"]`), the contents of each style
template file, the GPT-2 pipeline's `generated_text` for a prompt, and the
TTS environment. -/
structure RunEnv where
  rawTranscript : List Char
  styleFile : String → List Char
  gen : List Char → List Char
  tts : TtsEnv

/-- Effect trace of one Create-view run: the transcript persisted to
`outputs/transcripts` (if any), the template files read, the prompts passed
to the generator, the texts passed to `tts_to_bytes`, the styled text
displayed, and the failure reason if the run halted. -/
structure RunTrace where
  transcriptSaved : Option (List Char)
  stylesLoaded : List String
  genCalls : List (List Char)
  ttsCalls : List (List Char)
  styledOut : Option (List Char)
  failed : Option String

/-- Model of the Create view's story pipeline (lines 187-234 of the
source): transcribe and `.strip()`; on an empty transcript show an error
and `st.stop()` (nothing else runs); otherwise persist the transcript,
load the style template, build `seed_prompt`, invoke the generator, slice
the styled text, and synthesize narration. -/
def createStory (env : RunEnv) (style : String) : RunTrace :=
  let transcript := pyStrip env.rawTranscript
  if transcript.isEmpty then
    { transcriptSaved := none, stylesLoaded := [], genCalls := [],
      ttsCalls := [], styledOut := none, failed := some "empty transcript" }
  else
    match STYLE_FILES style with
    | none =>
      { transcriptSaved := some transcript, stylesLoaded := [], genCalls := [],
        ttsCalls := [], styledOut := none, failed := some "KeyError" }
    | some path =>
      let p := pyStrip (env.styleFile path)
      let seed := seed_prompt p transcript
      let sty := styled (env.gen seed)
      let t := tts_to_bytes env.tts { txtExists := false, wavExists := false } sty
      { transcriptSaved := some transcript
        stylesLoaded := [path]
        genCalls := [seed]
        ttsCalls := [sty]
        styledOut := some sty
        failed := match t.res with
                  | Except.ok _ => none
                  | Except.error e => some e }

/-- Upload path `os.path.join(UPLOAD_DIR, f"{ts}_{safe_name}")` from
line 184 of the source. -/
def upload_path (ts name : List Char) : List Char :=
  UPLOAD_DIR ++ "/".data ++ ts ++ "_".data ++ safe_name name

/-- Model of `save_bytes` (lines 92-97 of the source): the file at `path`
is written unconditionally and the path returned; the filesystem is the
list of written paths. -/
def save_bytes (files : List (List Char)) (path : List Char) : List (List Char) :=
  path :: files

/-! ### Lemmas about the string model -/

theorem leadsWith_iff (p : List Char) : ∀ s, leadsWith p s = true ↔ ∃ t, s = p ++ t := by
  induction p with
  | nil =>
    intro s
    simp [leadsWith]
  | cons a as ih =>
    intro s
    cases s with
    | nil => simp [leadsWith]
    | cons b bs =>
      rw [show leadsWith (a :: as) (b :: bs) = (a == b && leadsWith as bs) from rfl,
        Bool.and_eq_true, beq_iff_eq, ih]
      constructor
      · rintro ⟨rfl, t, rfl⟩
        exact ⟨t, rfl⟩
      · rintro ⟨t, ht⟩
        injection ht with h1 h2
        exact ⟨h1.symm, t, h2⟩

theorem splitOnceAfter_of_leadsWith {sep s : List Char} (h : leadsWith sep s = true) :
    splitOnceAfter sep s = some (s.drop sep.length) := by
  cases s with
  | nil => simp [splitOnceAfter, h]
  | cons c cs => simp [splitOnceAfter, h]

theorem containsSeq_of_leadsWith {sep s : List Char} (h : leadsWith sep s = true) :
    containsSeq sep s = true := by
  simp [containsSeq, splitOnceAfter_of_leadsWith h]

theorem containsSeq_cons_false {sep : List Char} {c : Char} {cs : List Char}
    (h : containsSeq sep (c :: cs) = false) : containsSeq sep cs = false := by
  by_cases hl : leadsWith sep (c :: cs) = true
  · rw [containsSeq, splitOnceAfter_of_leadsWith hl] at h
    simp at h
  · rw [containsSeq, splitOnceAfter, if_neg hl] at h
    exact h

/-- Occurrence as a decomposition: `containsSeq sep s` holds exactly when
`s` can be split as `a ++ sep ++ b`. -/
theorem containsSeq_iff (sep : List Char) :
    ∀ s, containsSeq sep s = true ↔ ∃ a b, s = a ++ sep ++ b := by
  intro s
  induction s with
  | nil =>
    cases sep with
    | nil =>
      constructor
      · intro _
        exact ⟨[], [], rfl⟩
      · intro _
        rfl
    | cons x xs =>
      constructor
      · intro h
        rw [containsSeq, splitOnceAfter, if_neg (by simp [leadsWith])] at h
        simp at h
      · rintro ⟨a, b, hab⟩
        simp at hab
  | cons c cs ih =>
    constructor
    · intro h
      by_cases hl : leadsWith sep (c :: cs) = true
      · obtain ⟨t, ht⟩ := (leadsWith_iff sep _).mp hl
        exact ⟨[], t, by simpa using ht⟩
      · rw [containsSeq, splitOnceAfter, if_neg hl] at h
        obtain ⟨a, b, hab⟩ := ih.mp h
        exact ⟨c :: a, b, by simp [hab]⟩
    · rintro ⟨a, b, hab⟩
      cases a with
      | nil =>
        simp only [List.nil_append] at hab
        exact containsSeq_of_leadsWith ((leadsWith_iff sep _).mpr ⟨b, hab⟩)
      | cons x xs =>
        injection hab with h1 h2
        by_cases hl : leadsWith sep (c :: cs) = true
        · exact containsSeq_of_leadsWith hl
        · rw [containsSeq, splitOnceAfter, if_neg hl]
          exact ih.mpr ⟨xs, b, h2⟩

/-- If `sep` does not occur strictly before the shown occurrence (no
occurrence inside `A ++ sep.dropLast`), then the first-occurrence split of
`A ++ sep ++ g` returns exactly `g`. -/
theorem splitOnceAfter_append (sep : List Char) (hsep : sep ≠ []) :
    ∀ A g : List Char, containsSeq sep (A ++ sep.dropLast) = false →
      splitOnceAfter sep (A ++ sep ++ g) = some g := by
  intro A
  induction A with
  | nil =>
    intro g _
    have hl : leadsWith sep (sep ++ g) = true := (leadsWith_iff sep _).mpr ⟨g, rfl⟩
    rw [List.nil_append, splitOnceAfter_of_leadsWith hl, List.drop_left]
  | cons c A' ih =>
    intro g h
    by_cases hl : leadsWith sep ((c :: A') ++ sep ++ g) = true
    · exfalso
      obtain ⟨r, hr⟩ := (leadsWith_iff sep _).mp hl
      have hsg : sep ++ g = sep.dropLast ++ ([sep.getLast hsep] ++ g) := by
        rw [← List.append_assoc, List.dropLast_concat_getLast hsep]
      have hdec : (c :: A') ++ sep ++ g
          = ((c :: A') ++ sep.dropLast) ++ ([sep.getLast hsep] ++ g) := by
        rw [List.append_assoc, hsg, ← List.append_assoc]
      have hpre1 : sep <+: (c :: A') ++ sep ++ g := ⟨r, hr.symm⟩
      have hpre2 : ((c :: A') ++ sep.dropLast) <+: (c :: A') ++ sep ++ g :=
        ⟨[sep.getLast hsep] ++ g, hdec.symm⟩
      have hp : 0 < sep.length := List.length_pos.mpr hsep
      have hlen : sep.length ≤ ((c :: A') ++ sep.dropLast).length := by
        simp only [List.length_append, List.length_cons, List.length_dropLast]
        omega
      obtain ⟨t, ht⟩ := List.prefix_of_prefix_length_le hpre1 hpre2 hlen
      have : containsSeq sep ((c :: A') ++ sep.dropLast) = true :=
        containsSeq_of_leadsWith ((leadsWith_iff sep _).mpr ⟨t, ht.symm⟩)
      rw [this] at h
      simp at h
    · have hstep : (c :: A') ++ sep ++ g = c :: (A' ++ sep ++ g) := rfl
      rw [hstep, splitOnceAfter, if_neg (hstep ▸ hl)]
      have h' : containsSeq sep (A' ++ sep.dropLast) = false :=
        containsSeq_cons_false (h : containsSeq sep (c :: (A' ++ sep.dropLast)) = false)
      exact ih g h'

theorem dropWhile_dropWhile_self {α : Type} (p : α → Bool) (l : List α) :
    (l.dropWhile p).dropWhile p = l.dropWhile p := by
  induction l with
  | nil => rfl
  | cons a l ih =>
    by_cases hp : p a = true
    · rw [List.dropWhile_cons_of_pos hp]
      exact ih
    · rw [List.dropWhile_cons_of_neg hp, List.dropWhile_cons_of_neg hp]

theorem dropWhile_head_false {α : Type} (p : α → Bool) :
    ∀ {l : List α} {a : α} {t : List α}, l.dropWhile p = a :: t → p a = false := by
  intro l
  induction l with
  | nil =>
    intro a t h
    simp at h
  | cons b l ih =>
    intro a t h
    by_cases hp : p b = true
    · rw [List.dropWhile_cons_of_pos hp] at h
      exact ih h
    · rw [List.dropWhile_cons_of_neg hp] at h
      injection h with h1 h2
      subst h1
      simpa using hp

theorem dropWhile_eq_self_of_head {α : Type} (p : α → Bool) {l : List α}
    (h : ∀ a t, l = a :: t → p a = false) : l.dropWhile p = l := by
  cases l with
  | nil => rfl
  | cons a t => rw [List.dropWhile_cons_of_neg (by simp [h a t rfl])]

theorem pyStrip_idem (m : List Char) : pyStrip (pyStrip m) = pyStrip m := by
  unfold pyStrip
  set u := m.dropWhile Char.isWhitespace with hu
  set v := u.reverse.dropWhile Char.isWhitespace with hv
  have h1 : v.reverse.dropWhile Char.isWhitespace = v.reverse := by
    apply dropWhile_eq_self_of_head
    intro a t h
    obtain ⟨w, hw⟩ := List.dropWhile_suffix (l := u.reverse) Char.isWhitespace
    have huv : v.reverse ++ w.reverse = u := by
      rw [hv, ← List.reverse_append, hw, List.reverse_reverse]
    have hu2 : u = a :: (t ++ w.reverse) := by
      rw [← huv, h, List.cons_append]
    exact dropWhile_head_false Char.isWhitespace (hu.symm.trans hu2)
  have h2 : v.dropWhile Char.isWhitespace = v := by
    rw [hv]
    exact dropWhile_dropWhile_self _ _
  rw [h1, List.reverse_reverse, h2]

theorem mem_pyStrip {a : Char} {l : List Char} (h : a ∈ pyStrip l) : a ∈ l := by
  unfold pyStrip at h
  rw [List.mem_reverse] at h
  have h1 : a ∈ (l.dropWhile Char.isWhitespace).reverse :=
    (List.dropWhile_suffix Char.isWhitespace).sublist.subset h
  rw [List.mem_reverse] at h1
  exact (List.dropWhile_suffix Char.isWhitespace).sublist.subset h1

/-! ### Claim theorems -/

/-- C7: filename sanitization (`safe_name`, line 183 of the source) is
idempotent: filtering to the retained character set and stripping
surrounding whitespace, applied twice, equals one application. -/
theorem safe_name_idempotent (s : List Char) :
    safe_name (safe_name s) = safe_name s := by
  unfold safe_name
  have hf : (pyStrip (s.filter keepChar)).filter keepChar
      = pyStrip (s.filter keepChar) := by
    rw [List.filter_eq_self]
    intro a ha
    exact List.of_mem_filter (mem_pyStrip ha)
  rw [hf, pyStrip_idem]

/-- C1 (amended): the rewrite post-processing
`out.split("Rewrite:\n", 1)[-1].strip()` returns the trimmed tail of the
generated text after the FIRST occurrence of the marker when the marker
occurs (`maxsplit=1` splits at the first occurrence, not the last), and
the whole generated output (trimmed) when the marker never appears. -/
theorem styled_tail_after_first_marker (out : List Char) :
    (containsSeq marker out = false → styled out = pyStrip out) ∧
    (∀ a b : List Char, out = a ++ marker ++ b →
      containsSeq marker (a ++ marker.dropLast) = false →
      styled out = pyStrip b) := by
  constructor
  · intro h
    cases hs : splitOnceAfter marker out with
    | none => simp only [styled, hs]
    | some t =>
      rw [containsSeq, hs] at h
      simp at h
  · rintro a b rfl h
    simp only [styled, splitOnceAfter_append marker (by decide) a b h]

/-- Witness for C1: on `"Rewrite:\nhi"` the marker occurs once at the
front and the post-processing returns the trimmed tail. -/
theorem styled_tail_after_first_marker_witness :
    styled ("Rewrite:\nhi".data) = pyStrip ("hi".data) :=
  (styled_tail_after_first_marker ("Rewrite:\nhi".data)).2 [] ("hi".data)
    (by decide) (by decide)

/-- Counterexample for C1 as stated: on a raw output with two marker
occurrences, the text after the LAST occurrence is `"B"` (the tail `"B"`
contains no further marker), yet the post-processing returns
`"A\nRewrite:\nB"`, the tail after the first occurrence. -/
theorem styled_not_tail_after_last_marker :
    "Rewrite:\nA\nRewrite:\nB".data
        = "Rewrite:\nA\n".data ++ marker ++ "B".data
      ∧ containsSeq marker ("B".data) = false
      ∧ styled ("Rewrite:\nA\nRewrite:\nB".data) ≠ pyStrip ("B".data) := by
  refine ⟨by decide, by decide, by decide⟩

/-- C5: whenever the generator echoes the seed prompt — its raw output is
`seed_prompt p t ++ cont` with the seed marker being the first occurrence
of `"Rewrite:\n"` — the styled text of the Create view is exactly the
trimmed continuation `cont`: the echoed prompt, including the style
template text preceding the marker, is discarded. -/
theorem styled_discards_echoed_prompt (env : RunEnv) (style path : String)
    (hs : STYLE_FILES style = some path)
    (ht : (pyStrip env.rawTranscript).isEmpty = false)
    (cont : List Char)
    (hgen : env.gen (seed_prompt (pyStrip (env.styleFile path)) (pyStrip env.rawTranscript))
      = seed_prompt (pyStrip (env.styleFile path)) (pyStrip env.rawTranscript) ++ cont)
    (hfirst : containsSeq marker
      ((pyStrip (env.styleFile path) ++ "\n\nOriginal:\n".data
        ++ pyStrip env.rawTranscript ++ "\n\n".data) ++ marker.dropLast) = false) :
    (createStory env style).styledOut = some (pyStrip cont) := by
  have hA : seed_prompt (pyStrip (env.styleFile path)) (pyStrip env.rawTranscript) ++ cont
      = (pyStrip (env.styleFile path) ++ "\n\nOriginal:\n".data
          ++ pyStrip env.rawTranscript ++ "\n\n".data) ++ marker ++ cont := by
    unfold seed_prompt
    rw [show ("\n\nRewrite:\n".data : List Char) = "\n\n".data ++ marker from by decide]
    simp [List.append_assoc]
  have hsty : styled (env.gen (seed_prompt (pyStrip (env.styleFile path))
      (pyStrip env.rawTranscript))) = pyStrip cont := by
    rw [hgen, hA]
    simp only [styled, splitOnceAfter_append marker (by decide) _ cont hfirst]
  simp only [createStory, ht, Bool.false_eq_true, if_false, hs, hsty]

/-- Witness for C5 at a concrete run: template `"P"`, transcript `"T"`,
generator echoing the prompt followed by `" G"`. -/
theorem styled_discards_echoed_prompt_witness :
    (createStory
      { rawTranscript := "T".data, styleFile := fun _ => "P".data,
        gen := fun s => s ++ " G".data,
        tts := { espeakAvailable := true, espeakOk := true, espeakWroteWav := true,
                 fbCreates := false, fbRaises := false, wavBytes := [] } }
      "Horror").styledOut = some (pyStrip (" G".data)) :=
  styled_discards_echoed_prompt _ "Horror" "styles/horror.txt"
    (by decide) (by decide) (" G".data) rfl (by decide)

/-- C3: when transcription returns a string that is empty after trimming,
the Create-view run halts as a terminal failure: no transcript file is
persisted, no style template is loaded, the rewrite model is not invoked,
and the narration engine is not invoked (`st.stop()` at line 195 of the
source runs before any of those steps). -/
theorem empty_transcript_halts (env : RunEnv) (style : String)
    (h : pyStrip env.rawTranscript = []) :
    (createStory env style).transcriptSaved = none ∧
    (createStory env style).stylesLoaded = [] ∧
    (createStory env style).genCalls = [] ∧
    (createStory env style).ttsCalls = [] ∧
    (createStory env style).failed = some "empty transcript" := by
  have hE : (pyStrip env.rawTranscript).isEmpty = true := by
    rw [h]
    rfl
  simp [createStory, hE]

/-- Witness for C3: whitespace-only transcription result on a concrete
environment. -/
theorem empty_transcript_halts_witness :
    (createStory
      { rawTranscript := "  ".data, styleFile := fun _ => "P".data,
        gen := fun s => s,
        tts := { espeakAvailable := false, espeakOk := false, espeakWroteWav := false,
                 fbCreates := false, fbRaises := false, wavBytes := [] } }
      "Horror").transcriptSaved = none ∧
    (createStory
      { rawTranscript := "  ".data, styleFile := fun _ => "P".data,
        gen := fun s => s,
        tts := { espeakAvailable := false, espeakOk := false, espeakWroteWav := false,
                 fbCreates := false, fbRaises := false, wavBytes := [] } }
      "Horror").stylesLoaded = [] ∧
    (createStory
      { rawTranscript := "  ".data, styleFile := fun _ => "P".data,
        gen := fun s => s,
        tts := { espeakAvailable := false, espeakOk := false, espeakWroteWav := false,
                 fbCreates := false, fbRaises := false, wavBytes := [] } }
      "Horror").genCalls = [] ∧
    (createStory
      { rawTranscript := "  ".data, styleFile := fun _ => "P".data,
        gen := fun s => s,
        tts := { espeakAvailable := false, espeakOk := false, espeakWroteWav := false,
                 fbCreates := false, fbRaises := false, wavBytes := [] } }
      "Horror").ttsCalls = [] ∧
    (createStory
      { rawTranscript := "  ".data, styleFile := fun _ => "P".data,
        gen := fun s => s,
        tts := { espeakAvailable := false, espeakOk := false, espeakWroteWav := false,
                 fbCreates := false, fbRaises := false, wavBytes := [] } }
      "Horror").failed = some "empty transcript" :=
  empty_transcript_halts _ "Horror" (by decide)

/-- C4: the style catalog rejects every name outside the fixed four-name
set with a `KeyError` (a `LookupError`) instead of returning text, and for
each of the four names returns the trimmed contents of the associated
template file. -/
theorem style_catalog_contract (readFile : String → List Char) :
    (∀ name : String, name ∉ styleNames →
      load_style_prompt readFile name = Except.error "KeyError") ∧
    load_style_prompt readFile "Fairy Tale"
      = Except.ok (pyStrip (readFile "styles/fairytale.txt")) ∧
    load_style_prompt readFile "News Article"
      = Except.ok (pyStrip (readFile "styles/news.txt")) ∧
    load_style_prompt readFile "Stand-Up Comedy"
      = Except.ok (pyStrip (readFile "styles/comedy.txt")) ∧
    load_style_prompt readFile "Horror"
      = Except.ok (pyStrip (readFile "styles/horror.txt")) := by
  refine ⟨?_, rfl, rfl, rfl, rfl⟩
  intro name hname
  simp only [styleNames, List.mem_cons, List.mem_singleton, not_or] at hname
  obtain ⟨h1, h2, h3, h4⟩ := hname
  simp [load_style_prompt, STYLE_FILES, h1, h2, h3, h4]

/-- Witness for C4: the unsupported name `"Sonnet"` fails with `KeyError`. -/
theorem style_catalog_contract_witness :
    load_style_prompt (fun _ => "tpl".data) "Sonnet" = Except.error "KeyError" :=
  (style_catalog_contract (fun _ => "tpl".data)).1 "Sonnet" (by decide)

/-- C6: on every run that reaches the rewrite step, the prompt handed to
the text-generation model is exactly
`template ++ "\n\nOriginal:\n" ++ transcript ++ "\n\nRewrite:\n"`, where
`template` is the loaded (trimmed) style template and `transcript` the
trimmed non-empty transcript. -/
theorem generator_prompt_composition (env : RunEnv) (style path : String)
    (hs : STYLE_FILES style = some path)
    (ht : (pyStrip env.rawTranscript).isEmpty = false) :
    (createStory env style).genCalls
      = [pyStrip (env.styleFile path) ++ "\n\nOriginal:\n".data
          ++ pyStrip env.rawTranscript ++ "\n\nRewrite:\n".data] := by
  simp [createStory, ht, hs, seed_prompt]

/-- Witness for C6 at a concrete run with template `"P"` and transcript
`"T"`. -/
theorem generator_prompt_composition_witness :
    (createStory
      { rawTranscript := "T".data, styleFile := fun _ => "P".data,
        gen := fun s => s,
        tts := { espeakAvailable := true, espeakOk := true, espeakWroteWav := true,
                 fbCreates := false, fbRaises := false, wavBytes := [] } }
      "Fairy Tale").genCalls
      = [pyStrip ("P".data) ++ "\n\nOriginal:\n".data
          ++ pyStrip ("T".data) ++ "\n\nRewrite:\n".data] :=
  generator_prompt_composition _ "Fairy Tale" "styles/fairytale.txt"
    (by decide) (by decide)

/-- C2 (amended): the transient files of `tts_to_bytes` do not exist after
the call on both exit paths, except on the fallback failure path where the
engine raises after producing the wav: on the primary espeak path the
`finally` block removes both files on success and on failure, and on the
fallback path the wav is removed on a normal return and never created on
the no-output failure return, but the fallback path has no `try`/`finally`,
so a wav produced before an engine exception survives the call. -/
theorem tts_transient_cleanup (env : TtsEnv) (fs : FS) (text : List Char)
    (htxt : fs.txtExists = false) (hwav : fs.wavExists = false)
    (h : env.espeakAvailable = true ∨ env.fbRaises = false) :
    (tts_to_bytes env fs text).fs.txtExists = false ∧
    (tts_to_bytes env fs text).fs.wavExists = false := by
  rcases env with ⟨ea, eo, ew, fc, fr, wb⟩
  rcases fs with ⟨tx, wv⟩
  cases ea <;> cases eo <;> cases ew <;> cases fc <;> cases fr <;>
    simp_all [tts_to_bytes]

/-- Witness for C2: a concrete successful espeak run starting from a clean
state leaves no transient file. -/
theorem tts_transient_cleanup_witness :
    (tts_to_bytes
      { espeakAvailable := true, espeakOk := true, espeakWroteWav := false,
        fbCreates := false, fbRaises := false, wavBytes := [1] }
      { txtExists := false, wavExists := false } "hi".data).fs.txtExists = false ∧
    (tts_to_bytes
      { espeakAvailable := true, espeakOk := true, espeakWroteWav := false,
        fbCreates := false, fbRaises := false, wavBytes := [1] }
      { txtExists := false, wavExists := false } "hi".data).fs.wavExists = false :=
  tts_transient_cleanup _ _ _ rfl rfl (Or.inl rfl)

/-- Counterexample for C2 as stated: espeak unavailable, and the pyttsx3
fallback produces the wav and then raises; the call exits with the engine's
exception and the transient wav file still exists afterwards. -/
theorem tts_fallback_leaves_wav :
    (tts_to_bytes
      { espeakAvailable := false, espeakOk := false, espeakWroteWav := false,
        fbCreates := true, fbRaises := true, wavBytes := [1] }
      { txtExists := false, wavExists := false } "hi".data).fs.wavExists = true ∧
    (tts_to_bytes
      { espeakAvailable := false, espeakOk := false, espeakWroteWav := false,
        fbCreates := true, fbRaises := true, wavBytes := [1] }
      { txtExists := false, wavExists := false } "hi".data).res
      = Except.error "pyttsx3 engine exception" :=
  ⟨rfl, rfl⟩

/-- C8: if espeak-ng is unavailable and the pyttsx3 fallback completes
without producing the output wav file (starting from a state without a
stale wav), `tts_to_bytes` raises a `RuntimeError` whose message names the
missing dependency `espeak-ng`, and returns no audio bytes. -/
theorem tts_missing_dependency (env : TtsEnv) (fs : FS) (text : List Char)
    (h1 : env.espeakAvailable = false) (h2 : env.fbRaises = false)
    (h3 : env.fbCreates = false) (h4 : fs.wavExists = false) :
    (tts_to_bytes env fs text).res
      = Except.error "TTS failed. On Linux, install and use espeak-ng." ∧
    containsSeq "espeak-ng".data
      "TTS failed. On Linux, install and use espeak-ng.".data = true := by
  refine ⟨?_, by decide⟩
  simp [tts_to_bytes, h1, h2, h3, h4]

/-- Witness for C8 at a concrete environment with no engine available. -/
theorem tts_missing_dependency_witness :
    (tts_to_bytes
      { espeakAvailable := false, espeakOk := false, espeakWroteWav := false,
        fbCreates := false, fbRaises := false, wavBytes := [] }
      { txtExists := false, wavExists := false } "x".data).res
      = Except.error "TTS failed. On Linux, install and use espeak-ng." ∧
    containsSeq "espeak-ng".data
      "TTS failed. On Linux, install and use espeak-ng.".data = true :=
  tts_missing_dependency _ _ _ rfl rfl rfl rfl

/-- C10: every wav write performed by `tts_to_bytes` targets the single
fixed path `outputs/audio/tmp_tts.wav`, independent of the environment,
the input text and the engine path taken (so the transient path is shared
across calls); on the successful primary path and on the producing
fallback path exactly that path is written. -/
theorem tts_fixed_transient_path :
    (∀ env fs (text : List Char) p, p ∈ (tts_to_bytes env fs text).wavWrites →
      p = "outputs/audio/tmp_tts.wav") ∧
    (∀ env fs (text : List Char), env.espeakAvailable = true → env.espeakOk = true →
      (tts_to_bytes env fs text).wavWrites = ["outputs/audio/tmp_tts.wav"]) ∧
    (∀ env fs (text : List Char), env.espeakAvailable = false → env.fbCreates = true →
      (tts_to_bytes env fs text).wavWrites = ["outputs/audio/tmp_tts.wav"]) := by
  have hpath : tmp_tts_path = "outputs/audio/tmp_tts.wav" := by decide
  refine ⟨?_, ?_, ?_⟩
  · intro env fs text p hp
    rcases env with ⟨ea, eo, ew, fc, fr, wb⟩
    rcases fs with ⟨tx, wv⟩
    cases ea <;> cases eo <;> cases ew <;> cases fc <;> cases fr <;> cases wv <;>
      simp_all [tts_to_bytes, hpath]
  · intro env fs text h1 h2
    simp [tts_to_bytes, h1, h2, hpath]
  · intro env fs text h1 h2
    rcases env with ⟨ea, eo, ew, fc, fr, wb⟩
    cases fr <;> simp_all [tts_to_bytes, hpath]

/-- Witness for C10: the successful primary path writes exactly the fixed
path. -/
theorem tts_fixed_transient_path_witness :
    (tts_to_bytes
      { espeakAvailable := true, espeakOk := true, espeakWroteWav := false,
        fbCreates := false, fbRaises := false, wavBytes := [] }
      { txtExists := false, wavExists := false } "x".data).wavWrites
      = ["outputs/audio/tmp_tts.wav"] :=
  tts_fixed_transient_path.2.1 _ _ _ rfl rfl

/-- C9: when every character of the uploaded filename is outside the
retained set, `safe_name` returns the empty string, and the upload is
still accepted: it is saved, without any error branch, at
`uploads/<timestamp>_` with an empty name component. -/
theorem safe_name_empty_still_saved (name ts : List Char)
    (h : ∀ c ∈ name, keepChar c = false) :
    safe_name name = [] ∧
    upload_path ts name = "uploads/".data ++ ts ++ "_".data ∧
    upload_path ts name ∈ save_bytes [] (upload_path ts name) := by
  have hf : name.filter keepChar = [] := by
    rw [List.filter_eq_nil_iff]
    intro a ha
    simp [h a ha]
  have hsn : safe_name name = [] := by
    rw [safe_name, hf]
    rfl
  refine ⟨hsn, ?_, List.mem_cons_self _ _⟩
  rw [upload_path, hsn, List.append_nil,
    show (UPLOAD_DIR ++ "/".data : List Char) = "uploads/".data from by decide]

/-- Witness for C9: the filename `"@/#"` consists only of stripped
characters and is saved under `uploads/20250101_`. -/
theorem safe_name_empty_still_saved_witness :
    safe_name ("@/#".data) = [] ∧
    upload_path ("20250101".data) ("@/#".data)
      = "uploads/".data ++ "20250101".data ++ "_".data :=
  ⟨(safe_name_empty_still_saved ("@/#".data) ("20250101".data) (by decide)).1,
   (safe_name_empty_still_saved ("@/#".data) ("20250101".data) (by decide)).2.1⟩

example : styled "Rewrite:\nA\nRewrite:\nB".data = "A\nRewrite:\nB".data := by decide

example : styled "no marker here ".data = "no marker here".data := by decide

example : safe_name " a/b?.wav ".data = "ab.wav".data := by decide

end Aurwrite
